import Mathlib

/-!
# Branch CRUD service: request handlers over a relational store

A shallow embedding of `handler/branchHandler.go`, `helpers/error.go`,
`helpers/success.go` and `config/db.go`.

* The MySQL table `branches(branch_id PRIMARY KEY, name, location)` is a value of
  type `Store`: the rows in insertion order and the AUTO_INCREMENT counter.
* Every handler is a function from the failures the driver reports during the
  request (`Faults`), the store before the request and the request itself to an
  `Outcome`: what was written to the `http.ResponseWriter`, the store after the
  request and the statements sent to the database, in order.
* The `http.ResponseWriter` is a recorder: content type, status line, values
  written to the body. Writes to it succeed; since `json.Encoder.Encode` of a
  struct of three strings cannot fail on such a writer, the `http.Error` fallback
  of the two `Send...Response` helpers is not reachable and has no counterpart here.
* Go `int` is 64 bits wide; `strconv.Atoi` rejects what does not fit.
-/

namespace Preview

/-! ## Data model -/

/-- Modelled from the spec: the record `entity.Branch` (package `entity` is imported by the
handlers, its declaration is `{"id": int, "name": string, "location": string}`). -/
structure Branch where
  ID : Int
  Name : String
  Location : String
deriving DecidableEq, Repr

/-- A value of JSON, as `encoding/json` writes it. -/
inductive JSON where
  | null
  | num (n : Int)
  | str (s : String)
  | arr (xs : List JSON)
  | obj (fields : List (String × JSON))

/-- A Go slice value: the nil slice, or an allocated slice (which may be empty). -/
inductive Slice (α : Type) where
  | nil
  | mk (xs : List α)

/-- Go `append(s, x)`: appending to the nil slice allocates. -/
def Slice.append {α : Type} : Slice α → α → Slice α
  | Slice.nil, x => Slice.mk [x]
  | Slice.mk xs, x => Slice.mk (xs ++ [x])

/-- Modelled from the spec: how `encoding/json` writes an `entity.Branch`, with the field
names of the missing declaration: `{"id": int, "name": string, "location": string}`. -/
def encodeBranch (b : Branch) : JSON :=
  JSON.obj [("id", JSON.num b.ID), ("name", JSON.str b.Name), ("location", JSON.str b.Location)]

/-- How `encoding/json` writes a `[]entity.Branch`: a nil slice is written as `null`,
any other slice as an array. -/
def encodeBranches : Slice Branch → JSON
  | Slice.nil => JSON.null
  | Slice.mk xs => JSON.arr (xs.map encodeBranch)

/-! ## helpers/error.go, helpers/success.go -/

/-- The struct `helpers.ErrorResponse`. -/
structure ErrorResponse where
  Status : String
  Title : String
  Detail : String
  StatusCode : Nat

/-- The struct `helpers.SuccessResponse`. -/
structure SuccessResponse where
  Status : String
  Title : String
  Detail : String
  StatusCode : Nat

/-- The body of an envelope: `StatusCode` carries the tag `json:"-"` and is not written. -/
def encodeEnvelope (status title detail : String) : JSON :=
  JSON.obj [("status", JSON.str status), ("title", JSON.str title), ("detail", JSON.str detail)]

/-- What a handler has written to its `http.ResponseWriter`. -/
structure ResponseWriter where
  contentType : String
  statusCode : Option Nat
  body : List JSON

/-- A fresh writer: no header set, no status line, empty body. -/
def ResponseWriter.new : ResponseWriter :=
  { contentType := "", statusCode := none, body := [] }

/-- The call `w.Header().Set("Content-Type", v)`: without effect once the status line is out. -/
def ResponseWriter.setContentType (w : ResponseWriter) (v : String) : ResponseWriter :=
  if w.statusCode.isSome then w else { w with contentType := v }

/-- The call `w.WriteHeader(code)`: only the first call counts. -/
def ResponseWriter.WriteHeader (w : ResponseWriter) (code : Nat) : ResponseWriter :=
  if w.statusCode.isSome then w else { w with statusCode := some code }

/-- The call `json.NewEncoder(w).Encode(v)`: the first write sends status 200 when no status
line was written before. -/
def ResponseWriter.Encode (w : ResponseWriter) (v : JSON) : ResponseWriter :=
  { w with statusCode := some (w.statusCode.getD 200), body := w.body ++ [v] }

/-- The function `helpers.SendErrorResponse`. -/
def SendErrorResponse (w : ResponseWriter) (errResponse : ErrorResponse) (statusCode : Nat) :
    ResponseWriter :=
  ((w.setContentType "application/json").WriteHeader statusCode).Encode
    (encodeEnvelope errResponse.Status errResponse.Title errResponse.Detail)

/-- The function `helpers.SendSuccessResponse`. -/
def SendSuccessResponse (w : ResponseWriter) (successResponse : SuccessResponse)
    (statusCode : Nat) : ResponseWriter :=
  ((w.setContentType "application/json").WriteHeader statusCode).Encode
    (encodeEnvelope successResponse.Status successResponse.Title successResponse.Detail)

/-! ## strconv.Atoi -/

/-- The byte test of `strconv.Atoi`: `ch -= 48; ch > 9` rejects. -/
def isDigit (c : Char) : Bool :=
  decide (48 ≤ c.toNat ∧ c.toNat ≤ 57)

/-- The loop `n = n*10 + int(ch - 48)` over the digits. -/
def digitsValue (ds : List Char) : Int :=
  ds.foldl (fun n ch => n * 10 + ((ch.toNat - 48 : Nat) : Int)) 0

/-- The function `strconv.Atoi` for a 64-bit `int`: an optional sign, then at least one decimal
digit and nothing else, and a value that fits; `none` stands for a non-nil error
(`ErrSyntax` or `ErrRange`). -/
def Atoi (s : String) : Option Int :=
  match s.data with
  | [] => none
  | c :: rest =>
    let ds := if c = '-' ∨ c = '+' then rest else c :: rest
    if ds = [] then none
    else if ds.all isDigit then
      let n := if c = '-' then -(digitsValue ds) else digitsValue ds
      if -(2 ^ 63 : Int) ≤ n ∧ n < (2 ^ 63 : Int) then some n else none
    else none

/-! ## The store -/

/-- The table `branches`: its rows in insertion order, and the value AUTO_INCREMENT gives to
the next inserted row. -/
structure Store where
  rows : List Branch
  nextID : Int
deriving DecidableEq, Repr

/-- The statement `SELECT branch_id, name, location FROM branches WHERE branch_id = ?`, read by
`QueryRowContext`: the first matching row, if there is one. -/
def Store.selectByID (s : Store) (id : Int) : Option Branch :=
  s.rows.find? (fun b => b.ID == id)

/-- The statement `SELECT branch_id FROM branches WHERE branch_id = ?`. -/
def Store.selectIDByID (s : Store) (id : Int) : Option Int :=
  (s.selectByID id).map (fun b => b.ID)

/-- The statement `INSERT INTO branches (name, location) VALUES (?, ?)`: the new row takes the
AUTO_INCREMENT value; the primary key refuses a value that a row already has (`none`).
Returns the new store, `RowsAffected` and `LastInsertId`. -/
def Store.insert (s : Store) (name location : String) : Option (Store × Int × Int) :=
  if s.rows.any (fun b => b.ID == s.nextID) then none
  else some ({ rows := s.rows ++ [{ ID := s.nextID, Name := name, Location := location }],
               nextID := s.nextID + 1 }, 1, s.nextID)

/-- The statement `UPDATE branches SET name = ?, location = ? WHERE branch_id = ?`. -/
def Store.update (s : Store) (name location : String) (id : Int) : Store :=
  { s with rows := s.rows.map (fun b =>
      if b.ID = id then { b with Name := name, Location := location } else b) }

/-- The statement `DELETE FROM branches WHERE branch_id = ?`. -/
def Store.delete (s : Store) (id : Int) : Store :=
  { s with rows := s.rows.filter (fun b => b.ID != id) }

/-- A statement sent to the database for execution, or the ping of `config.GetDB`; the
preparation of a statement (`PrepareContext`) is not recorded. -/
inductive Stmt where
  | ping
  | selectAll
  | selectByID (id : Int)
  | selectIDByID (id : Int)
  | insert (name location : String)
  | delete (id : Int)
  | update (name location : String) (id : Int)
deriving DecidableEq, Repr

/-- The failures the driver reports during one request. A handler makes each kind of call at
most once, except the scan of the rows of a listing.
* `connect`: `config.GetDB` returns an error (its `Ping` fails);
* `query`: `QueryContext`, or the `Scan` of `QueryRowContext`, returns an error other than
  `sql.ErrNoRows`;
* `scan b`: `rows.Scan` fails on row `b` of a listing;
* `prepare`: `PrepareContext` returns an error;
* `exec`: `ExecContext` returns an error, the statement not being applied. -/
structure Faults where
  connect : Bool
  query : Bool
  scan : Branch → Bool
  prepare : Bool
  exec : Bool

/-- No failure during the request. -/
def Faults.none : Faults :=
  { connect := false, query := false, scan := fun _ => false, prepare := false, exec := false }

/-- What a handler reads of a request: the path parameter `id` and the body as
`json.NewDecoder(r.Body).Decode` reads it into an `entity.Branch`: `none` when `Decode`
returns an error, else the decoded record (a field absent from the body is the zero value). -/
structure Request where
  id : String
  body : Option Branch

/-- The effect of a handler. -/
structure Outcome where
  w : ResponseWriter
  store : Store
  issued : List Stmt

/-! ## config/db.go -/

/-- The function `config.GetDB`: opens the handle and pings the server; `true` when the
error it returns is nil. -/
def GetDB (f : Faults) : Bool × List Stmt :=
  (!f.connect, [Stmt.ping])

/-! ## handler/branchHandler.go -/

/-- The scan loop of `GetBranch`: a row whose `Scan` fails is logged and skipped, the
others are appended to the slice. -/
def scanRows (f : Faults) (rows : List Branch) (branch : Slice Branch) : Slice Branch :=
  rows.foldl (fun acc b => if f.scan b then acc else acc.append b) branch

/-- The handler `GetBranch`. -/
def GetBranch (f : Faults) (s : Store) (_r : Request) : Outcome :=
  let w := ResponseWriter.new
  let (ok, log) := GetDB f
  if !ok then
    { w := SendErrorResponse w
        { Status := "500", Title := "Internal Server Error",
          Detail := "Failed to connect to the database", StatusCode := 500 } 500,
      store := s, issued := log }
  else
    let log := log ++ [Stmt.selectAll]
    if f.query then
      { w := SendErrorResponse w
          { Status := "500", Title := "Internal Server Error",
            Detail := "Failed to fetch branches", StatusCode := 500 } 500,
        store := s, issued := log }
    else
      let branch := scanRows f s.rows Slice.nil
      { w := (w.setContentType "application/json").Encode (encodeBranches branch),
        store := s, issued := log }

/-- The handler `GetBranchByID`. -/
def GetBranchByID (f : Faults) (s : Store) (r : Request) : Outcome :=
  let w := ResponseWriter.new
  let (ok, log) := GetDB f
  if !ok then
    { w := SendErrorResponse w
        { Status := "500", Title := "Internal Server Error",
          Detail := "Failed to connect to the database", StatusCode := 500 } 500,
      store := s, issued := log }
  else
    match Atoi r.id with
    | none =>
      { w := SendErrorResponse w
          { Status := "400", Title := "Bad Request",
            Detail := "Invalid Branches ID", StatusCode := 400 } 400,
        store := s, issued := log }
    | some branchID =>
      let log := log ++ [Stmt.selectByID branchID]
      if f.query then
        { w := SendErrorResponse w
            { Status := "500", Title := "Internal Server Error",
              Detail := "Failed to fetch branches details", StatusCode := 500 } 500,
          store := s, issued := log }
      else
        match s.selectByID branchID with
        | none =>
          { w := SendErrorResponse w
              { Status := "404", Title := "Not Found",
                Detail := "Branches Not Found", StatusCode := 404 } 404,
            store := s, issued := log }
        | some branch =>
          { w := (w.setContentType "application/json").Encode (encodeBranch branch),
            store := s, issued := log }

/-- The handler `CreateBranch`. -/
def CreateBranch (f : Faults) (s : Store) (r : Request) : Outcome :=
  let w := ResponseWriter.new
  let (ok, log) := GetDB f
  if !ok then
    { w := SendErrorResponse w
        { Status := "500", Title := "Internal Server Error",
          Detail := "Failed to connect to the database", StatusCode := 500 } 500,
      store := s, issued := log }
  else
    match r.body with
    | none =>
      { w := SendErrorResponse w
          { Status := "400", Title := "Bad Request",
            Detail := "Invalid request body", StatusCode := 400 } 400,
        store := s, issued := log }
    | some branch =>
      if branch.Name = "" ∨ branch.Location = "" then
        { w := SendErrorResponse w
            { Status := "400", Title := "Bad Request",
              Detail := "Name and Location are required fields", StatusCode := 400 } 400,
          store := s, issued := log }
      else if f.prepare then
        { w := SendErrorResponse w
            { Status := "500", Title := "Internal Server Error",
              Detail := "Failed to prepare SQL statement", StatusCode := 500 } 500,
          store := s, issued := log }
      else
        let log := log ++ [Stmt.insert branch.Name branch.Location]
        match (if f.exec then none else s.insert branch.Name branch.Location) with
        | none =>
          { w := SendErrorResponse w
              { Status := "500", Title := "Internal Server Error",
                Detail := "Failed to insert into the database", StatusCode := 500 } 500,
            store := s, issued := log }
        | some (s1, rowsAffected, id) =>
          if rowsAffected = 0 then
            { w := SendErrorResponse w
                { Status := "500", Title := "Internal Server Error",
                  Detail := "Failed to create branches", StatusCode := 500 } 500,
              store := s1, issued := log }
          else
            let _branch : Branch := { branch with ID := id }
            { w := SendSuccessResponse w
                { Status := "201", Title := "Success",
                  Detail := "Branches Successfully Created", StatusCode := 201 } 201,
              store := s1, issued := log }

/-- The handler `DeleteBranchByID`. -/
def DeleteBranchByID (f : Faults) (s : Store) (r : Request) : Outcome :=
  let w := ResponseWriter.new
  let (ok, log) := GetDB f
  if !ok then
    { w := SendErrorResponse w
        { Status := "500", Title := "Internal Server Error",
          Detail := "Failed to connect to the database", StatusCode := 500 } 500,
      store := s, issued := log }
  else
    match Atoi r.id with
    | none =>
      { w := SendErrorResponse w
          { Status := "502", Title := "Bad Gateway",
            Detail := "Invalid Branches ID", StatusCode := 502 } 502,
        store := s, issued := log }
    | some branchID =>
      let log := log ++ [Stmt.selectIDByID branchID]
      if f.query then
        { w := SendErrorResponse w
            { Status := "500", Title := "Internal Server Error",
              Detail := "Failed To Check Branches Existence", StatusCode := 500 } 500,
          store := s, issued := log }
      else
        match s.selectIDByID branchID with
        | none =>
          { w := SendErrorResponse w
              { Status := "404", Title := "Not Found",
                Detail := "Branch Not Found", StatusCode := 404 } 404,
            store := s, issued := log }
        | some _existingBranchID =>
          if f.prepare then
            { w := SendErrorResponse w
                { Status := "500", Title := "Internal Server Error",
                  Detail := "Failed to prepare SQL statement", StatusCode := 500 } 500,
              store := s, issued := log }
          else
            let log := log ++ [Stmt.delete branchID]
            if f.exec then
              { w := SendErrorResponse w
                  { Status := "500", Title := "Internal Server Error",
                    Detail := "Failed To Delete Branch", StatusCode := 500 } 500,
                store := s, issued := log }
            else
              { w := SendSuccessResponse w
                  { Status := "200", Title := "Success",
                    Detail := "Branch Deleted Successfully", StatusCode := 200 } 200,
                store := s.delete branchID, issued := log }

/-- The handler `UpdateBranchByID`. -/
def UpdateBranchByID (f : Faults) (s : Store) (r : Request) : Outcome :=
  let w := ResponseWriter.new
  let (ok, log) := GetDB f
  if !ok then
    { w := SendErrorResponse w
        { Status := "500", Title := "Internal Server Error",
          Detail := "Failed to connect to the database", StatusCode := 500 } 500,
      store := s, issued := log }
  else
    match Atoi r.id with
    | none =>
      { w := SendErrorResponse w
          { Status := "502", Title := "Bad Gateway",
            Detail := "Invalid Branch ID", StatusCode := 502 } 502,
        store := s, issued := log }
    | some branchID =>
      let log := log ++ [Stmt.selectIDByID branchID]
      if f.query then
        { w := SendErrorResponse w
            { Status := "500", Title := "Internal Server Error",
              Detail := "Failed To Check Branch Existence", StatusCode := 500 } 500,
          store := s, issued := log }
      else
        match s.selectIDByID branchID with
        | none =>
          { w := SendErrorResponse w
              { Status := "404", Title := "Not Found",
                Detail := "Branch Not Found", StatusCode := 404 } 404,
            store := s, issued := log }
        | some _existingBranchID =>
          match r.body with
          | none =>
            { w := SendErrorResponse w
                { Status := "400", Title := "Bad Request",
                  Detail := "Invalid request body", StatusCode := 400 } 400,
              store := s, issued := log }
          | some updatedBranch =>
            if updatedBranch.Name = "" ∨ updatedBranch.Location = "" then
              { w := SendErrorResponse w
                  { Status := "400", Title := "Bad Request",
                    Detail := "Name and Location are required fields", StatusCode := 400 } 400,
                store := s, issued := log }
            else if f.prepare then
              { w := SendErrorResponse w
                  { Status := "500", Title := "Internal Server Error",
                    Detail := "Failed to prepare SQL statement", StatusCode := 500 } 500,
                store := s, issued := log }
            else
              let log := log ++ [Stmt.update updatedBranch.Name updatedBranch.Location branchID]
              if f.exec then
                { w := SendErrorResponse w
                    { Status := "500", Title := "Internal Server Error",
                      Detail := "Failed To Update Branch", StatusCode := 500 } 500,
                  store := s, issued := log }
              else
                { w := SendSuccessResponse w
                    { Status := "200", Title := "Success",
                      Detail := "Branch Updated Successfully", StatusCode := 200 } 200,
                  store := s.update updatedBranch.Name updatedBranch.Location branchID,
                  issued := log }

/-! ## main.go -/

/-- The five routes registered in `main`. -/
inductive Route where
  | listBranches
  | getBranch
  | createBranch
  | deleteBranch
  | updateBranch
deriving DecidableEq, Repr

/-- The handler the router runs for a route. -/
def serve : Route → Faults → Store → Request → Outcome
  | Route.listBranches => GetBranch
  | Route.getBranch => GetBranchByID
  | Route.createBranch => CreateBranch
  | Route.deleteBranch => DeleteBranchByID
  | Route.updateBranch => UpdateBranchByID

/-! ## Predicates of the specification -/

/-- Every row of the table has a non-empty name and a non-empty location. -/
def Store.Valid (s : Store) : Prop :=
  ∀ b ∈ s.rows, b.Name ≠ "" ∧ b.Location ≠ ""

instance (s : Store) : Decidable s.Valid :=
  inferInstanceAs (Decidable (∀ b ∈ s.rows, b.Name ≠ "" ∧ b.Location ≠ ""))

/-- What the update of the row `id` to `name` and `location` allows between a row before
(`old`) and the row at the same position after (`new`): the id is kept, a row of another id
is untouched, a row of that id carries the new name and location. -/
def UpdatedRow (id : Int) (name location : String) (old new : Branch) : Prop :=
  new.ID = old.ID ∧ (old.ID ≠ id → new = old) ∧
    (old.ID = id → new.Name = name ∧ new.Location = location)

instance (id : Int) (name location : String) (old new : Branch) :
    Decidable (UpdatedRow id name location old new) :=
  inferInstanceAs (Decidable (new.ID = old.ID ∧ (old.ID ≠ id → new = old) ∧
    (old.ID = id → new.Name = name ∧ new.Location = location)))

/-- The status line the handler has sent. -/
def Outcome.status (o : Outcome) : Option Nat :=
  o.w.statusCode

/-- A store with two rows. -/
def sampleStore : Store :=
  { rows := [{ ID := 1, Name := "Downtown", Location := "5th Ave" },
             { ID := 2, Name := "Harbour", Location := "Pier 9" }],
    nextID := 3 }

/-- A failure of the connection and of nothing else. -/
def connectionDown : Faults :=
  { connect := true, query := false, scan := fun _ => false, prepare := false, exec := false }

/-- A failure of the query and of nothing else. -/
def queryDown : Faults :=
  { connect := false, query := true, scan := fun _ => false, prepare := false, exec := false }


/-! ## Auxiliary facts about the store -/

theorem selectByID_eq_none_iff (s : Store) (id : Int) :
    s.selectByID id = none ↔ ∀ b ∈ s.rows, b.ID ≠ id := by
  simp [Store.selectByID, List.find?_eq_none]

theorem selectIDByID_eq_none_iff (s : Store) (id : Int) :
    s.selectIDByID id = none ↔ ∀ b ∈ s.rows, b.ID ≠ id := by
  simp [Store.selectIDByID, selectByID_eq_none_iff]

theorem selectIDByID_isSome_of_mem (s : Store) (id : Int) (b : Branch) (hb : b ∈ s.rows)
    (hid : b.ID = id) : ∃ k, s.selectIDByID id = some k := by
  cases h : s.selectIDByID id with
  | none => exact absurd hid ((selectIDByID_eq_none_iff s id).1 h b hb)
  | some k => exact ⟨k, rfl⟩

theorem selectByID_delete (s : Store) (id : Int) : (s.delete id).selectByID id = none := by
  rw [selectByID_eq_none_iff]
  intro b hb
  simp [Store.delete] at hb
  exact hb.2

theorem insert_eq_some (s s1 : Store) (name location : String) (n id : Int)
    (h : s.insert name location = some (s1, n, id)) :
    (∀ b ∈ s.rows, b.ID ≠ id) ∧ n = 1 ∧ id = s.nextID ∧
      s1 = { rows := s.rows ++ [{ ID := id, Name := name, Location := location }],
             nextID := s.nextID + 1 } := by
  unfold Store.insert at h
  split at h
  · cases h
  · rename_i hany
    simp only [Option.some.injEq, Prod.mk.injEq] at h
    obtain ⟨h1, h2, h3⟩ := h
    subst h1 h2 h3
    refine ⟨?_, rfl, rfl, rfl⟩
    intro b hb hid
    apply hany
    simp only [List.any_eq_true]
    exact ⟨b, hb, by simp [hid]⟩

theorem selectByID_append_new (rows : List Branch) (k : Int) (b : Branch)
    (hfresh : ∀ x ∈ rows, x.ID ≠ b.ID) :
    Store.selectByID { rows := rows ++ [b], nextID := k } b.ID = some b := by
  unfold Store.selectByID
  rw [List.find?_append]
  have : rows.find? (fun x => x.ID == b.ID) = none := by
    simp [List.find?_eq_none]
    exact hfresh
  simp [this]

/-! ## Create -/

/-- C1: when the body decodes to a Branch with non-empty name and location and the store
operations of the request succeed (connection, prepare, exec, and the insert itself, which
yields the new store `s1` and the assigned id), CreateBranch responds 201 and leaves the
store `s1`; a GetBranchByID that then runs on that store with a path id parsing to the
assigned id, its own connection and query succeeding, responds 200 with the Branch of that
id and of the name and location of the body. -/
theorem create_then_get_by_id (f g : Faults) (s s1 : Store) (r : Request) (b : Branch)
    (n id : Int) (p : String) (body : Option Branch)
    (hbody : r.body = some b) (hname : b.Name ≠ "") (hloc : b.Location ≠ "")
    (hconn : f.connect = false) (hprep : f.prepare = false) (hexec : f.exec = false)
    (hins : s.insert b.Name b.Location = some (s1, n, id))
    (hgconn : g.connect = false) (hgquery : g.query = false)
    (hp : Atoi p = some id) :
    (CreateBranch f s r).status = some 201 ∧
    (CreateBranch f s r).w.body = [encodeEnvelope "201" "Success" "Branches Successfully Created"] ∧
    (CreateBranch f s r).store = s1 ∧
    (GetBranchByID g (CreateBranch f s r).store { id := p, body := body }).status = some 200 ∧
    (GetBranchByID g (CreateBranch f s r).store { id := p, body := body }).w.body =
      [encodeBranch { ID := id, Name := b.Name, Location := b.Location }] := by
  obtain ⟨hfresh, hn, hidn, hs1⟩ := insert_eq_some s s1 b.Name b.Location n id hins
  have hcreate : CreateBranch f s r =
      { w := SendSuccessResponse ResponseWriter.new
          { Status := "201", Title := "Success",
            Detail := "Branches Successfully Created", StatusCode := 201 } 201,
        store := s1,
        issued := [Stmt.ping] ++ [Stmt.insert b.Name b.Location] } := by
    simp [CreateBranch, GetDB, hbody, hname, hloc, hconn, hprep, hexec, hins, hn]
  have hsel : s1.selectByID id = some { ID := id, Name := b.Name, Location := b.Location } := by
    rw [hs1]
    exact selectByID_append_new s.rows (s.nextID + 1)
      { ID := id, Name := b.Name, Location := b.Location } hfresh
  rw [hcreate]
  refine ⟨rfl, rfl, rfl, ?_, ?_⟩
  · simp [GetBranchByID, GetDB, hgconn, hgquery, hp, hsel, Outcome.status,
      ResponseWriter.Encode, ResponseWriter.setContentType, ResponseWriter.new]
  · simp [GetBranchByID, GetDB, hgconn, hgquery, hp, hsel,
      ResponseWriter.Encode, ResponseWriter.setContentType, ResponseWriter.new]

/-- Witness of C1 on the two-row store: the body `Docks / Quay 4` is inserted under id 3
and read back through the path id "3". -/
theorem create_then_get_by_id_witness :
    (CreateBranch Faults.none sampleStore
        { id := "", body := some { ID := 77, Name := "Docks", Location := "Quay 4" } }).status
      = some 201 ∧
    (GetBranchByID Faults.none
        (CreateBranch Faults.none sampleStore
          { id := "", body := some { ID := 77, Name := "Docks", Location := "Quay 4" } }).store
        { id := "3", body := none }).w.body =
      [encodeBranch { ID := 3, Name := "Docks", Location := "Quay 4" }] :=
  have h := create_then_get_by_id Faults.none Faults.none sampleStore
    { rows := sampleStore.rows ++ [{ ID := 3, Name := "Docks", Location := "Quay 4" }],
      nextID := 4 }
    { id := "", body := some { ID := 77, Name := "Docks", Location := "Quay 4" } }
    { ID := 77, Name := "Docks", Location := "Quay 4" } 1 3 "3" none
    rfl (by decide) (by decide) rfl rfl rfl (by decide) rfl rfl (by decide)
  ⟨h.1, h.2.2.2.2⟩

/-- C2 as stated fails: with the connection to the database down, a body whose name is empty
gets 500 from CreateBranch, not 400. -/
theorem create_empty_name_connection_down :
    (CreateBranch connectionDown sampleStore
        { id := "", body := some { ID := 0, Name := "", Location := "Quay 4" } }).status
      = some 500 ∧
    (CreateBranch connectionDown sampleStore
        { id := "", body := some { ID := 0, Name := "", Location := "Quay 4" } }).status
      ≠ some 400 := by
  decide

/-- C2, amended: when the connection to the database is acquired and the body decodes to a
Branch whose name is empty or whose location is empty, CreateBranch responds 400 with the
envelope titled Bad Request, the store is unchanged, and the only statement sent is the ping
of the connection (no insert). -/
theorem create_missing_field (f : Faults) (s : Store) (r : Request) (b : Branch)
    (hconn : f.connect = false) (hbody : r.body = some b)
    (hempty : b.Name = "" ∨ b.Location = "") :
    (CreateBranch f s r).status = some 400 ∧
    (CreateBranch f s r).w.body =
      [encodeEnvelope "400" "Bad Request" "Name and Location are required fields"] ∧
    (CreateBranch f s r).store = s ∧
    (CreateBranch f s r).issued = [Stmt.ping] := by
  have h : CreateBranch f s r =
      { w := SendErrorResponse ResponseWriter.new
          { Status := "400", Title := "Bad Request",
            Detail := "Name and Location are required fields", StatusCode := 400 } 400,
        store := s, issued := [Stmt.ping] } := by
    simp [CreateBranch, GetDB, hbody, hconn, hempty]
  rw [h]
  exact ⟨rfl, rfl, rfl, rfl⟩

/-- Witness of the amended C2: an empty location on the two-row store. -/
theorem create_missing_field_witness :
    (CreateBranch Faults.none sampleStore
        { id := "", body := some { ID := 0, Name := "Docks", Location := "" } }).status
      = some 400 ∧
    (CreateBranch Faults.none sampleStore
        { id := "", body := some { ID := 0, Name := "Docks", Location := "" } }).store
      = sampleStore :=
  have h := create_missing_field Faults.none sampleStore
    { id := "", body := some { ID := 0, Name := "Docks", Location := "" } }
    { ID := 0, Name := "Docks", Location := "" } rfl rfl (Or.inr rfl)
  ⟨h.1, h.2.2.1⟩

/-! ## The invariant of the table -/

theorem GetBranch_store (f : Faults) (s : Store) (r : Request) : (GetBranch f s r).store = s := by
  unfold GetBranch GetDB
  cases f.connect <;> cases f.query <;> rfl

theorem GetBranchByID_store (f : Faults) (s : Store) (r : Request) :
    (GetBranchByID f s r).store = s := by
  unfold GetBranchByID GetDB
  dsimp only
  repeat' split
  all_goals rfl

theorem CreateBranch_store (f : Faults) (s : Store) (r : Request) :
    (CreateBranch f s r).store = s ∨
    ∃ b s1 n id, r.body = some b ∧ b.Name ≠ "" ∧ b.Location ≠ "" ∧
      s.insert b.Name b.Location = some (s1, n, id) ∧ (CreateBranch f s r).store = s1 := by
  unfold CreateBranch GetDB
  dsimp only
  split
  · left; rfl
  · split
    · left; rfl
    · rename_i b hb
      split
      · left; rfl
      · rename_i hv
        split
        · left; rfl
        · split
          · left; rfl
          · rename_i s1 n id hins
            right
            refine ⟨b, s1, n, id, hb, fun h => hv (Or.inl h), fun h => hv (Or.inr h), ?_, ?_⟩
            · split at hins
              · cases hins
              · exact hins
            · split <;> rfl

theorem DeleteBranchByID_store (f : Faults) (s : Store) (r : Request) :
    (DeleteBranchByID f s r).store = s ∨
    ∃ id, (DeleteBranchByID f s r).store = s.delete id := by
  unfold DeleteBranchByID GetDB
  dsimp only
  repeat' split
  all_goals first
    | exact Or.inl rfl
    | exact Or.inr ⟨_, rfl⟩

theorem UpdateBranchByID_store (f : Faults) (s : Store) (r : Request) :
    (UpdateBranchByID f s r).store = s ∨
    ∃ b id, r.body = some b ∧ b.Name ≠ "" ∧ b.Location ≠ "" ∧
      (UpdateBranchByID f s r).store = s.update b.Name b.Location id := by
  unfold UpdateBranchByID GetDB
  dsimp only
  split
  · left; rfl
  · split
    · left; rfl
    · split
      · left; rfl
      · split
        · left; rfl
        · split
          · left; rfl
          · rename_i b hb
            split
            · left; rfl
            · rename_i hv
              split
              · left; rfl
              · split
                · left; rfl
                · right
                  exact ⟨b, _, hb, fun h => hv (Or.inl h), fun h => hv (Or.inr h), rfl⟩

theorem insert_valid (s s1 : Store) (name location : String) (n id : Int)
    (hs : s.Valid) (hname : name ≠ "") (hloc : location ≠ "")
    (h : s.insert name location = some (s1, n, id)) : s1.Valid := by
  obtain ⟨_, _, _, hs1⟩ := insert_eq_some s s1 name location n id h
  subst hs1
  intro b hb
  simp only [List.mem_append, List.mem_singleton] at hb
  rcases hb with hb | hb
  · exact hs b hb
  · subst hb
    exact ⟨hname, hloc⟩

theorem update_valid (s : Store) (name location : String) (id : Int)
    (hs : s.Valid) (hname : name ≠ "") (hloc : location ≠ "") :
    (s.update name location id).Valid := by
  intro b hb
  simp only [Store.update, List.mem_map] at hb
  obtain ⟨a, ha, hab⟩ := hb
  by_cases hid : a.ID = id
  · rw [if_pos hid] at hab
    subst hab
    exact ⟨hname, hloc⟩
  · rw [if_neg hid] at hab
    subst hab
    exact hs a ha

theorem delete_valid (s : Store) (id : Int) (hs : s.Valid) : (s.delete id).Valid := by
  intro b hb
  simp only [Store.delete, List.mem_filter] at hb
  exact hs b hb.1

/-- C3: if every row of the table has a non-empty name and a non-empty location, then so
has every row of the table left by any of the five handlers, on any request and under any
failures of the database calls. -/
theorem handlers_preserve_valid (route : Route) (f : Faults) (s : Store) (r : Request)
    (hs : s.Valid) : (serve route f s r).store.Valid := by
  cases route
  · show (GetBranch f s r).store.Valid
    rw [GetBranch_store]; exact hs
  · show (GetBranchByID f s r).store.Valid
    rw [GetBranchByID_store]; exact hs
  · show (CreateBranch f s r).store.Valid
    rcases CreateBranch_store f s r with h | ⟨b, s1, n, id, _, hname, hloc, hins, h⟩
    · rw [h]; exact hs
    · rw [h]; exact insert_valid s s1 b.Name b.Location n id hs hname hloc hins
  · show (DeleteBranchByID f s r).store.Valid
    rcases DeleteBranchByID_store f s r with h | ⟨id, h⟩
    · rw [h]; exact hs
    · rw [h]; exact delete_valid s id hs
  · show (UpdateBranchByID f s r).store.Valid
    rcases UpdateBranchByID_store f s r with h | ⟨b, id, _, hname, hloc, h⟩
    · rw [h]; exact hs
    · rw [h]; exact update_valid s b.Name b.Location id hs hname hloc

/-- Witness of C3: the two-row store is valid, and stays so after an update of row 2. -/
theorem handlers_preserve_valid_witness :
    sampleStore.Valid ∧
    (serve Route.updateBranch Faults.none sampleStore
      { id := "2", body := some { ID := 0, Name := "Docks", Location := "Quay 4" } }).store.Valid :=
  ⟨by decide,
   handlers_preserve_valid Route.updateBranch Faults.none sampleStore
     { id := "2", body := some { ID := 0, Name := "Docks", Location := "Quay 4" } }
     (by decide)⟩

/-! ## Update of an absent id -/

/-- C4 as stated fails: with the connection to the database down, an update of the absent
id 999 gets 500, not 404. -/
theorem update_absent_connection_down :
    Atoi "999" = some 999 ∧ sampleStore.selectIDByID 999 = none ∧
    (UpdateBranchByID connectionDown sampleStore
        { id := "999", body := some { ID := 0, Name := "Docks", Location := "Quay 4" } }).status
      = some 500 ∧
    (UpdateBranchByID connectionDown sampleStore
        { id := "999", body := some { ID := 0, Name := "Docks", Location := "Quay 4" } }).status
      ≠ some 404 := by
  decide

/-- C4, amended: when the connection is acquired and the existence query succeeds, for every
path id that parses to an integer that is the id of no row, and for every request body,
UpdateBranchByID responds 404, leaves the store unchanged and sends no statement but the
ping and the existence query (no update, no insert). -/
theorem update_absent_id (f : Faults) (s : Store) (r : Request) (id : Int)
    (hconn : f.connect = false) (hquery : f.query = false)
    (hid : Atoi r.id = some id) (habsent : ∀ b ∈ s.rows, b.ID ≠ id) :
    (UpdateBranchByID f s r).status = some 404 ∧
    (UpdateBranchByID f s r).w.body = [encodeEnvelope "404" "Not Found" "Branch Not Found"] ∧
    (UpdateBranchByID f s r).store = s ∧
    (UpdateBranchByID f s r).issued = [Stmt.ping, Stmt.selectIDByID id] := by
  have hsel : s.selectIDByID id = none := (selectIDByID_eq_none_iff s id).2 habsent
  have h : UpdateBranchByID f s r =
      { w := SendErrorResponse ResponseWriter.new
          { Status := "404", Title := "Not Found",
            Detail := "Branch Not Found", StatusCode := 404 } 404,
        store := s, issued := [Stmt.ping] ++ [Stmt.selectIDByID id] } := by
    simp [UpdateBranchByID, GetDB, hconn, hquery, hid, hsel]
  rw [h]
  exact ⟨rfl, rfl, rfl, rfl⟩

/-- Witness of the amended C4: PUT on id 999 of the two-row store, with a valid body. -/
theorem update_absent_id_witness :
    (UpdateBranchByID Faults.none sampleStore
        { id := "999", body := some { ID := 0, Name := "Docks", Location := "Quay 4" } }).status
      = some 404 ∧
    (UpdateBranchByID Faults.none sampleStore
        { id := "999", body := some { ID := 0, Name := "Docks", Location := "Quay 4" } }).store
      = sampleStore :=
  have h := update_absent_id Faults.none sampleStore
    { id := "999", body := some { ID := 0, Name := "Docks", Location := "Quay 4" } } 999
    rfl rfl (by decide) (by decide)
  ⟨h.1, h.2.2.1⟩

/-! ## Delete, then get -/

/-- C5 as stated fails: the delete of row 2 responds 200, and a GetBranchByID on the same id
that finds the connection down responds 500, not 404. -/
theorem delete_then_get_connection_down :
    (DeleteBranchByID Faults.none sampleStore { id := "2", body := none }).status = some 200 ∧
    (GetBranchByID connectionDown
        (DeleteBranchByID Faults.none sampleStore { id := "2", body := none }).store
        { id := "2", body := none }).status = some 500 ∧
    (GetBranchByID connectionDown
        (DeleteBranchByID Faults.none sampleStore { id := "2", body := none }).store
        { id := "2", body := none }).status ≠ some 404 := by
  decide

theorem SendErrorResponse_status (e : ErrorResponse) (code : Nat) :
    (SendErrorResponse ResponseWriter.new e code).statusCode = some code := rfl

theorem SendSuccessResponse_status (e : SuccessResponse) (code : Nat) :
    (SendSuccessResponse ResponseWriter.new e code).statusCode = some code := rfl

theorem DeleteBranchByID_status_200 (f : Faults) (s : Store) (r : Request)
    (h : (DeleteBranchByID f s r).status = some 200) :
    ∃ id, Atoi r.id = some id ∧ (∃ k, s.selectIDByID id = some k) ∧
      (DeleteBranchByID f s r).store = s.delete id := by
  cases hc : f.connect with
  | true => simp [DeleteBranchByID, GetDB, hc, Outcome.status, SendErrorResponse_status] at h
  | false =>
    cases hid : Atoi r.id with
    | none =>
      simp [DeleteBranchByID, GetDB, hc, hid, Outcome.status, SendErrorResponse_status] at h
    | some id =>
      cases hq : f.query with
      | true =>
        simp [DeleteBranchByID, GetDB, hc, hid, hq, Outcome.status,
          SendErrorResponse_status] at h
      | false =>
        cases hk : s.selectIDByID id with
        | none =>
          simp [DeleteBranchByID, GetDB, hc, hid, hq, hk, Outcome.status,
            SendErrorResponse_status] at h
        | some k =>
          cases hp : f.prepare with
          | true =>
            simp [DeleteBranchByID, GetDB, hc, hid, hq, hk, hp, Outcome.status,
              SendErrorResponse_status] at h
          | false =>
            cases he : f.exec with
            | true =>
              simp [DeleteBranchByID, GetDB, hc, hid, hq, hk, hp, he, Outcome.status,
                SendErrorResponse_status] at h
            | false =>
              refine ⟨id, rfl, ⟨k, hk⟩, ?_⟩
              simp [DeleteBranchByID, GetDB, hc, hid, hq, hk, hp, he]

/-- C5, amended: after DeleteBranchByID has responded 200 on a path id, a GetBranchByID on
the same path id that runs on the resulting store, and whose connection and query succeed,
responds 404 with the envelope titled Not Found. -/
theorem delete_then_get_by_id (f g : Faults) (s : Store) (r : Request) (body : Option Branch)
    (hdel : (DeleteBranchByID f s r).status = some 200)
    (hgconn : g.connect = false) (hgquery : g.query = false) :
    (GetBranchByID g (DeleteBranchByID f s r).store { id := r.id, body := body }).status
      = some 404 ∧
    (GetBranchByID g (DeleteBranchByID f s r).store { id := r.id, body := body }).w.body
      = [encodeEnvelope "404" "Not Found" "Branches Not Found"] := by
  obtain ⟨id, hid, _, hstore⟩ := DeleteBranchByID_status_200 f s r hdel
  rw [hstore]
  have hsel := selectByID_delete s id
  have h : GetBranchByID g (s.delete id) { id := r.id, body := body } =
      { w := SendErrorResponse ResponseWriter.new
          { Status := "404", Title := "Not Found",
            Detail := "Branches Not Found", StatusCode := 404 } 404,
        store := s.delete id, issued := [Stmt.ping] ++ [Stmt.selectByID id] } := by
    simp [GetBranchByID, GetDB, hgconn, hgquery, hid, hsel]
  rw [h]
  exact ⟨rfl, rfl⟩

/-- Witness of the amended C5: row 2 of the two-row store is deleted, then looked up. -/
theorem delete_then_get_by_id_witness :
    (DeleteBranchByID Faults.none sampleStore { id := "2", body := none }).status = some 200 ∧
    (GetBranchByID Faults.none
        (DeleteBranchByID Faults.none sampleStore { id := "2", body := none }).store
        { id := "2", body := none }).status = some 404 :=
  ⟨by decide,
   (delete_then_get_by_id Faults.none Faults.none sampleStore { id := "2", body := none } none
      (by decide) rfl rfl).1⟩

/-! ## Get of an absent id -/

/-- C6 as stated fails: with the connection to the database down, GetBranchByID on the
absent id 999 responds 500 with the envelope titled Internal Server Error. -/
theorem get_absent_connection_down :
    Atoi "999" = some 999 ∧ sampleStore.selectByID 999 = none ∧
    (GetBranchByID connectionDown sampleStore { id := "999", body := none }).status
      = some 500 ∧
    (GetBranchByID connectionDown sampleStore { id := "999", body := none }).status
      ≠ some 404 := by
  decide

/-- C6, amended: when the connection is acquired and the query succeeds, for every path id
that parses to an integer matching no row, GetBranchByID responds 404 with the envelope of
status "404" and title "Not Found", and leaves the store unchanged. -/
theorem get_absent_id (f : Faults) (s : Store) (r : Request) (id : Int)
    (hconn : f.connect = false) (hquery : f.query = false)
    (hid : Atoi r.id = some id) (habsent : ∀ b ∈ s.rows, b.ID ≠ id) :
    (GetBranchByID f s r).status = some 404 ∧
    (GetBranchByID f s r).w.body = [encodeEnvelope "404" "Not Found" "Branches Not Found"] ∧
    (GetBranchByID f s r).store = s := by
  have hsel : s.selectByID id = none := (selectByID_eq_none_iff s id).2 habsent
  have h : GetBranchByID f s r =
      { w := SendErrorResponse ResponseWriter.new
          { Status := "404", Title := "Not Found",
            Detail := "Branches Not Found", StatusCode := 404 } 404,
        store := s, issued := [Stmt.ping] ++ [Stmt.selectByID id] } := by
    simp [GetBranchByID, GetDB, hconn, hquery, hid, hsel]
  rw [h]
  exact ⟨rfl, rfl, rfl⟩

/-- Witness of the amended C6: id 999 on the two-row store. -/
theorem get_absent_id_witness :
    (GetBranchByID Faults.none sampleStore { id := "999", body := none }).status = some 404 ∧
    (GetBranchByID Faults.none sampleStore { id := "999", body := none }).w.body =
      [encodeEnvelope "404" "Not Found" "Branches Not Found"] :=
  have h := get_absent_id Faults.none sampleStore { id := "999", body := none } 999
    rfl rfl (by decide) (by decide)
  ⟨h.1, h.2.1⟩

/-! ## A path id that is not an integer -/

/-- C7 as stated fails: with the connection to the database down, the path id "abc", which
does not parse, gets 500 from GetBranchByID (not 400) and 500 from UpdateBranchByID and
DeleteBranchByID (not 502). -/
theorem unparsable_id_connection_down :
    Atoi "abc" = none ∧
    (GetBranchByID connectionDown sampleStore { id := "abc", body := none }).status
      = some 500 ∧
    (UpdateBranchByID connectionDown sampleStore { id := "abc", body := none }).status
      = some 500 ∧
    (DeleteBranchByID connectionDown sampleStore { id := "abc", body := none }).status
      = some 500 := by
  decide

/-- C7, amended: when the connection is acquired, for every path id on which strconv.Atoi
fails, GetBranchByID responds 400 while UpdateBranchByID and DeleteBranchByID respond 502;
each of the three leaves the store unchanged and sends no statement but the ping of the
connection. -/
theorem unparsable_id (f : Faults) (s : Store) (r : Request)
    (hconn : f.connect = false) (hid : Atoi r.id = none) :
    ((GetBranchByID f s r).status = some 400 ∧ (GetBranchByID f s r).store = s ∧
      (GetBranchByID f s r).issued = [Stmt.ping]) ∧
    ((UpdateBranchByID f s r).status = some 502 ∧ (UpdateBranchByID f s r).store = s ∧
      (UpdateBranchByID f s r).issued = [Stmt.ping]) ∧
    ((DeleteBranchByID f s r).status = some 502 ∧ (DeleteBranchByID f s r).store = s ∧
      (DeleteBranchByID f s r).issued = [Stmt.ping]) := by
  have hg : GetBranchByID f s r =
      { w := SendErrorResponse ResponseWriter.new
          { Status := "400", Title := "Bad Request",
            Detail := "Invalid Branches ID", StatusCode := 400 } 400,
        store := s, issued := [Stmt.ping] } := by
    simp [GetBranchByID, GetDB, hconn, hid]
  have hu : UpdateBranchByID f s r =
      { w := SendErrorResponse ResponseWriter.new
          { Status := "502", Title := "Bad Gateway",
            Detail := "Invalid Branch ID", StatusCode := 502 } 502,
        store := s, issued := [Stmt.ping] } := by
    simp [UpdateBranchByID, GetDB, hconn, hid]
  have hd : DeleteBranchByID f s r =
      { w := SendErrorResponse ResponseWriter.new
          { Status := "502", Title := "Bad Gateway",
            Detail := "Invalid Branches ID", StatusCode := 502 } 502,
        store := s, issued := [Stmt.ping] } := by
    simp [DeleteBranchByID, GetDB, hconn, hid]
  rw [hg, hu, hd]
  exact ⟨⟨rfl, rfl, rfl⟩, ⟨rfl, rfl, rfl⟩, ⟨rfl, rfl, rfl⟩⟩

/-- Witness of the amended C7: the path id "abc"; the empty string, a string with a
non-digit and an integer beyond 64 bits are all refused by Atoi. -/
theorem unparsable_id_witness :
    (Atoi "" = none ∧ Atoi "12x" = none ∧ Atoi "9223372036854775808" = none) ∧
    (GetBranchByID Faults.none sampleStore { id := "abc", body := none }).status = some 400 ∧
    (UpdateBranchByID Faults.none sampleStore { id := "abc", body := none }).status
      = some 502 ∧
    (DeleteBranchByID Faults.none sampleStore { id := "abc", body := none }).status
      = some 502 :=
  have h := unparsable_id Faults.none sampleStore { id := "abc", body := none } rfl (by decide)
  ⟨by decide, h.1.1, h.2.1.1, h.2.2.1⟩

/-! ## Listing an empty table -/

/-- C8: what the code does on a table without rows, the connection and the query
succeeding: GetBranch responds 200 and the body is the JSON value `null`, the encoding of
the nil slice that no `append` has allocated; it is not the empty JSON array. -/
theorem list_empty_table_writes_null (f : Faults) (n : Int) (r : Request)
    (hconn : f.connect = false) (hquery : f.query = false) :
    (GetBranch f { rows := [], nextID := n } r).status = some 200 ∧
    (GetBranch f { rows := [], nextID := n } r).w.body = [JSON.null] ∧
    (GetBranch f { rows := [], nextID := n } r).w.body ≠ [JSON.arr []] := by
  have h : GetBranch f { rows := [], nextID := n } r =
      { w := (ResponseWriter.new.setContentType "application/json").Encode JSON.null,
        store := { rows := [], nextID := n }, issued := [Stmt.ping] ++ [Stmt.selectAll] } := by
    simp [GetBranch, GetDB, hconn, hquery, scanRows, encodeBranches]
  rw [h]
  refine ⟨rfl, rfl, ?_⟩
  intro hne
  have h0 : [JSON.null] = [JSON.arr []] := hne
  simp at h0

/-- Witness of C8: the empty table with counter 1, no failure. -/
theorem list_empty_table_writes_null_witness :
    (GetBranch Faults.none { rows := [], nextID := 1 } { id := "", body := none }).status
      = some 200 ∧
    (GetBranch Faults.none { rows := [], nextID := 1 } { id := "", body := none }).w.body
      = [JSON.null] :=
  have h := list_empty_table_writes_null Faults.none 1 { id := "", body := none } rfl rfl
  ⟨h.1, h.2.1⟩

/-! ## Order of the checks of an update -/

/-- C9 as stated fails: when the existence query itself fails, an update of the absent id
999 responds 500 (not 404), and an update of the present id 2 with an undecodable body
responds 500 (not 400). -/
theorem update_existence_query_down :
    Atoi "999" = some 999 ∧ sampleStore.selectIDByID 999 = none ∧
    (UpdateBranchByID queryDown sampleStore { id := "999", body := none }).status
      = some 500 ∧
    Atoi "2" = some 2 ∧ sampleStore.selectIDByID 2 = some 2 ∧
    (UpdateBranchByID queryDown sampleStore { id := "2", body := none }).status
      = some 500 := by
  decide

/-- C9, amended: when the connection is acquired and the existence query succeeds, the
existence check of UpdateBranchByID comes before the decoding and the validation of the
body. For a path id parsing to an integer absent from the store the response is 404, not
400, whatever the body; for one present in the store, a body that does not decode, or that
decodes to an empty name or an empty location, gives 400 and the store is unchanged. -/
theorem update_existence_before_body (f : Faults) (s : Store) (r : Request) (id : Int)
    (hconn : f.connect = false) (hquery : f.query = false) (hid : Atoi r.id = some id) :
    ((∀ b ∈ s.rows, b.ID ≠ id) →
      (UpdateBranchByID f s r).status = some 404 ∧
      (UpdateBranchByID f s r).status ≠ some 400) ∧
    ((∃ b ∈ s.rows, b.ID = id) →
      (r.body = none ∨ ∃ u, r.body = some u ∧ (u.Name = "" ∨ u.Location = "")) →
      (UpdateBranchByID f s r).status = some 400 ∧
      (UpdateBranchByID f s r).store = s) := by
  constructor
  · intro habsent
    have hsel : s.selectIDByID id = none := (selectIDByID_eq_none_iff s id).2 habsent
    have h : UpdateBranchByID f s r =
        { w := SendErrorResponse ResponseWriter.new
            { Status := "404", Title := "Not Found",
              Detail := "Branch Not Found", StatusCode := 404 } 404,
          store := s, issued := [Stmt.ping] ++ [Stmt.selectIDByID id] } := by
      simp [UpdateBranchByID, GetDB, hconn, hquery, hid, hsel]
    rw [h]
    refine ⟨rfl, ?_⟩
    intro h400
    have h1 : (some 404 : Option Nat) = some 400 := h400
    exact absurd h1 (by decide)
  · rintro ⟨b, hb, hbid⟩ hbad
    obtain ⟨k, hk⟩ := selectIDByID_isSome_of_mem s id b hb hbid
    rcases hbad with hnone | ⟨u, hu, hempty⟩
    · have h : UpdateBranchByID f s r =
          { w := SendErrorResponse ResponseWriter.new
              { Status := "400", Title := "Bad Request",
                Detail := "Invalid request body", StatusCode := 400 } 400,
            store := s, issued := [Stmt.ping] ++ [Stmt.selectIDByID id] } := by
        simp [UpdateBranchByID, GetDB, hconn, hquery, hid, hk, hnone]
      rw [h]
      exact ⟨rfl, rfl⟩
    · have h : UpdateBranchByID f s r =
          { w := SendErrorResponse ResponseWriter.new
              { Status := "400", Title := "Bad Request",
                Detail := "Name and Location are required fields", StatusCode := 400 } 400,
            store := s, issued := [Stmt.ping] ++ [Stmt.selectIDByID id] } := by
        simp [UpdateBranchByID, GetDB, hconn, hquery, hid, hk, hu, hempty]
      rw [h]
      exact ⟨rfl, rfl⟩

/-- Witness of the amended C9 on the two-row store: the absent id 999 with an undecodable
body gets 404; the present id 2 gets 400 for an undecodable body and for an empty name, and
the store stays as it was. -/
theorem update_existence_before_body_witness :
    (UpdateBranchByID Faults.none sampleStore { id := "999", body := none }).status
      = some 404 ∧
    (UpdateBranchByID Faults.none sampleStore { id := "2", body := none }).status
      = some 400 ∧
    ((UpdateBranchByID Faults.none sampleStore
        { id := "2", body := some { ID := 0, Name := "", Location := "Quay 4" } }).status
      = some 400 ∧
     (UpdateBranchByID Faults.none sampleStore
        { id := "2", body := some { ID := 0, Name := "", Location := "Quay 4" } }).store
      = sampleStore) :=
  ⟨((update_existence_before_body Faults.none sampleStore { id := "999", body := none } 999
      rfl rfl (by decide)).1 (by decide)).1,
   ((update_existence_before_body Faults.none sampleStore { id := "2", body := none } 2
      rfl rfl (by decide)).2
        ⟨{ ID := 2, Name := "Harbour", Location := "Pier 9" }, by decide, rfl⟩
        (Or.inl rfl)).1,
   (update_existence_before_body Faults.none sampleStore
      { id := "2", body := some { ID := 0, Name := "", Location := "Quay 4" } } 2
      rfl rfl (by decide)).2
        ⟨{ ID := 2, Name := "Harbour", Location := "Pier 9" }, by decide, rfl⟩
        (Or.inr ⟨{ ID := 0, Name := "", Location := "Quay 4" }, rfl, Or.inl rfl⟩)⟩

/-! ## Update of an existing row -/

theorem update_rows_forall₂ (id : Int) (name location : String) (rows : List Branch) :
    List.Forall₂ (UpdatedRow id name location) rows
      (rows.map (fun b =>
        if b.ID = id then { b with Name := name, Location := location } else b)) := by
  induction rows with
  | nil => exact List.Forall₂.nil
  | cons a rest ih =>
    rw [List.map_cons]
    refine List.Forall₂.cons ?_ ih
    by_cases h : a.ID = id
    · rw [if_pos h]
      exact ⟨rfl, fun hne => absurd h hne, fun _ => ⟨rfl, rfl⟩⟩
    · rw [if_neg h]
      exact ⟨rfl, fun _ => rfl, fun he => absurd he h⟩

/-- C10: when the store operations of the request succeed (connection, existence query,
prepare, exec), the path id parses to the id of a row of the store and the body decodes to
a Branch with non-empty name and location, UpdateBranchByID responds 200 and the resulting
store has the same counter and the same number of rows, each row in its place with its id:
a row of another id is unchanged, a row of that id carries the name and location of the
body. The id field of the body plays no part: any other value there gives the same outcome. -/
theorem update_existing_row (f : Faults) (s : Store) (r : Request) (b : Branch) (id : Int)
    (hconn : f.connect = false) (hquery : f.query = false)
    (hprep : f.prepare = false) (hexec : f.exec = false)
    (hid : Atoi r.id = some id) (hpresent : ∃ x ∈ s.rows, x.ID = id)
    (hbody : r.body = some b) (hname : b.Name ≠ "") (hloc : b.Location ≠ "") :
    (UpdateBranchByID f s r).status = some 200 ∧
    (UpdateBranchByID f s r).store.nextID = s.nextID ∧
    (UpdateBranchByID f s r).store.rows.length = s.rows.length ∧
    List.Forall₂ (UpdatedRow id b.Name b.Location) s.rows (UpdateBranchByID f s r).store.rows ∧
    ∀ k : Int, UpdateBranchByID f s { r with body := some { b with ID := k } }
      = UpdateBranchByID f s r := by
  obtain ⟨x, hx, hxid⟩ := hpresent
  obtain ⟨e, he⟩ := selectIDByID_isSome_of_mem s id x hx hxid
  have h : ∀ k : Int, UpdateBranchByID f s { r with body := some { b with ID := k } } =
      { w := SendSuccessResponse ResponseWriter.new
          { Status := "200", Title := "Success",
            Detail := "Branch Updated Successfully", StatusCode := 200 } 200,
        store := s.update b.Name b.Location id,
        issued := [Stmt.ping] ++ [Stmt.selectIDByID id]
          ++ [Stmt.update b.Name b.Location id] } := by
    intro k
    simp [UpdateBranchByID, GetDB, hconn, hquery, hprep, hexec, hid, he, hname, hloc]
  have hr : UpdateBranchByID f s r =
      { w := SendSuccessResponse ResponseWriter.new
          { Status := "200", Title := "Success",
            Detail := "Branch Updated Successfully", StatusCode := 200 } 200,
        store := s.update b.Name b.Location id,
        issued := [Stmt.ping] ++ [Stmt.selectIDByID id]
          ++ [Stmt.update b.Name b.Location id] } := by
    simp [UpdateBranchByID, GetDB, hconn, hquery, hprep, hexec, hid, he, hbody, hname, hloc]
  refine ⟨?_, ?_, ?_, ?_, ?_⟩
  · rw [hr]; rfl
  · rw [hr]; rfl
  · rw [hr]; simp [Store.update]
  · rw [hr]; exact update_rows_forall₂ id b.Name b.Location s.rows
  · intro k; rw [h k, hr]

/-- Witness of C10: row 2 of the two-row store is renamed; row 1 is as before and row 2
keeps the id 2, although the body says 77. -/
theorem update_existing_row_witness :
    (UpdateBranchByID Faults.none sampleStore
        { id := "2", body := some { ID := 77, Name := "Docks", Location := "Quay 4" } }).status
      = some 200 ∧
    (UpdateBranchByID Faults.none sampleStore
        { id := "2", body := some { ID := 77, Name := "Docks", Location := "Quay 4" } }).store
      = { rows := [{ ID := 1, Name := "Downtown", Location := "5th Ave" },
                   { ID := 2, Name := "Docks", Location := "Quay 4" }],
          nextID := 3 } :=
  ⟨(update_existing_row Faults.none sampleStore
      { id := "2", body := some { ID := 77, Name := "Docks", Location := "Quay 4" } }
      { ID := 77, Name := "Docks", Location := "Quay 4" } 2
      rfl rfl rfl rfl (by decide)
      ⟨{ ID := 2, Name := "Harbour", Location := "Pier 9" }, by decide, rfl⟩
      rfl (by decide) (by decide)).1,
   by decide⟩

end Preview
